import Mathlib

/- Shallow embedding of the quiz-attempt workflow of the fastapi-quiz-app
   repository: app/quizzes_workflow (models, services, router, utils) plus the
   attempt-related score aggregation in app/users/services.py and the start
   route in app/quizzes/router.py.

   Conventions of the embedding:
   * A Python datetime is a Nat counting whole seconds since an epoch; the
     datetime.time() projection used by time_is_between becomes t % 86400
     (seconds within the day).  A timedelta of m minutes is m * 60 seconds.
   * The relational store and the redis store become explicit state records
     threaded through the handlers; an HTTPException raised by a handler
     becomes an error value returned together with the unchanged state.
   * SQLAlchemy result handling is kept: a SELECT yields the list of matching
     rows, scalar_one_or_none can fail (it errors on two or more rows), and a
     SELECT count(...) yields the one-element list holding the count.
   * Python int(...) on the strings this subsystem itself produces becomes
     parse_int over the characters; f-string interpolation of a Nat becomes
     toString. -/

namespace QuizApp

/-- One row of the answers table (app/quizzes/models.py, class Answer). -/
structure Answer where
  id : Nat
  title : String
  is_correct : Bool
  question_id : Nat
deriving DecidableEq

/-- One row of the questions table together with its joined answers
(app/quizzes/models.py, class Question with the answers relationship). -/
structure Question where
  id : Nat
  title : String
  quiz_id : Nat
  answers : List Answer
deriving DecidableEq

/-- One row of the quizzes table together with its joined questions
(app/quizzes/models.py, class Quiz).  completion_time is in minutes. -/
structure Quiz where
  id : Nat
  title : String
  company_id : Nat
  fully_created : Bool
  completion_time : Nat
  questions : List Question
deriving DecidableEq

/-- The questions_count property of Quiz. -/
def Quiz.questions_count (q : Quiz) : Nat :=
  q.questions.length

/-- One row of the attempts table (app/quizzes_workflow/models.py) together
with its joined quiz relationship.  spent_time is the raw string column;
result is NULL until completion. -/
structure Attempt where
  id : Nat
  quiz_id : Nat
  user_id : Nat
  start_time : Nat
  end_time : Nat
  spent_time : String
  result : Option Nat
  quiz : Quiz
deriving DecidableEq

/-- Python int(...) restricted to the digit strings this subsystem produces:
digits accumulate left to right, any non-digit character fails. -/
def parse_int (s : List Char) : Option Nat :=
  if s.isEmpty then none
  else s.foldl
    (fun acc c => acc.bind (fun n => if c.isDigit then some (n * 10 + (c.toNat - 48)) else none))
    (some 0)

/-- The minutes component read back from a stored spent_time string:
int(attempt.spent_time.split(":")[0]) in utils.attempt_is_completed. -/
def spent_minutes (s : String) : Option Nat :=
  parse_int (s.data.takeWhile (fun c => c ≠ ':'))

/-- utils.time_is_between: the source compares the .time() projections of the
three datetimes, i.e. only the seconds-within-the-day components. -/
def time_is_between (start_time time_to_check end_time : Nat) : Bool :=
  decide (start_time % 86400 ≤ time_to_check % 86400 ∧
    time_to_check % 86400 ≤ end_time % 86400)

/-- utils.attempt_is_completed: completed when the current time-of-day falls
outside the time-of-day interval of the window, or when the minutes component
of spent_time differs from the completion_time configured on the quiz. -/
def attempt_is_completed (attempt : Attempt) (time_to_check : Nat) : Bool :=
  if ¬ time_is_between attempt.start_time time_to_check attempt.end_time then true
  else if spent_minutes attempt.spent_time ≠ some attempt.quiz.completion_time then true
  else false

/-- One per-question record of the archived result document built by
calculate_attempt_result (the dict appended to questions_answers). -/
structure QuestionResultDoc where
  title : String
  answers : List String
  user_answer : Option String
  is_correct : Option Bool
deriving DecidableEq

/-- The archived result document written under attempt-answers:{id}
(calculate_attempt_result, the data dict). -/
structure ResultDoc where
  quiz : String
  result : String
  spent_time : String
  questions : List QuestionResultDoc
deriving DecidableEq

/-- A redis namespace: entries (key, value, remaining ttl in seconds).  A key
occurs at most once because redisSet removes the old entry for its key. -/
abbrev KvStore (α : Type) : Type :=
  List (String × α × Nat)

/-- redis.set key value ex=ttl: unconditionally overwrites whatever was stored
under the key before. -/
def redisSet {α : Type} (store : KvStore α) (key : String) (value : α) (ttl : Nat) : KvStore α :=
  (key, value, ttl) :: store.filter (fun e => e.1 ≠ key)

/-- redis.get key: the stored value and its remaining ttl, if present. -/
def redisGet {α : Type} (store : KvStore α) (key : String) : Option (α × Nat) :=
  (store.find? (fun e => e.1 = key)).map (fun e => (e.2.1, e.2.2))

/-- The answer cache holds answer ids; the result archive holds documents.
The source keeps both in one redis instance, but an answer key starts with a
decimal digit and an archive key with the letter a of attempt-answers:, so no
key pattern used by the workflow can cross the two namespaces. -/
abbrev AnswerCache : Type :=
  KvStore Nat

/-- Result archive namespace (keys attempt-answers:{attempt_id}). -/
abbrev ResultArchive : Type :=
  KvStore ResultDoc

/-- One row of the users table, restricted to the column the workflow
mutates (app/users/models.py: overall_avg_score). -/
structure UserRow where
  id : Nat
  overall_avg_score : Rat
deriving DecidableEq

/-- One row of the company_user association table, restricted to the column
the workflow mutates (average_score). -/
structure CompanyUserRow where
  user_id : Nat
  company_id : Nat
  average_score : Rat
deriving DecidableEq

/-- The relational state visible to the workflow: the attempts table plus the
read-only tables it joins against. -/
structure Db where
  attempts : List Attempt
  quizzes : List Quiz
  questions : List Question
  answers : List Answer
  users : List UserRow
  company_users : List CompanyUserRow
  company_ids : List Nat
deriving DecidableEq

instance {ε α : Type} [DecidableEq ε] [DecidableEq α] : DecidableEq (Except ε α) := fun x y =>
  match x, y with
  | Except.ok a, Except.ok b =>
    if h : a = b then isTrue (by rw [h]) else isFalse (by intro hh; cases hh; exact h rfl)
  | Except.error a, Except.error b =>
    if h : a = b then isTrue (by rw [h]) else isFalse (by intro hh; cases hh; exact h rfl)
  | Except.ok _, Except.error _ => isFalse (by intro hh; cases hh)
  | Except.error _, Except.ok _ => isFalse (by intro hh; cases hh)

/-- SQLAlchemy Result.scalar_one_or_none(): none for zero rows, the row for
one, and a MultipleResultsFound error for two or more. -/
def scalar_one_or_none {α : Type} (rows : List α) : Except Unit (Option α) :=
  match rows with
  | [] => Except.ok none
  | [row] => Except.ok (some row)
  | _ => Except.error ()

/-- Errors raised by the workflow handlers (the HTTPExceptions of
app/quizzes_workflow/router.py, plus the unhandled MultipleResultsFound). -/
inductive WorkflowError where
  | attemptNotFound
  | forbidden
  | alreadyCompleted
  | questionNotFound
  | quizMismatch
  | answerNotFound
  | questionMismatch
  | resultsNotFound
  | multipleResults
deriving DecidableEq

/-- AttemptRepository.get_attempt_by_id with validate_user=True, as every
workflow handler calls it: select by id, then 403 when the requesting user is
not the performer. -/
def get_attempt_by_id (db : Db) (attempt_id current_user_id : Nat) :
    Except WorkflowError (Option Attempt) :=
  match scalar_one_or_none (db.attempts.filter (fun a => decide (a.id = attempt_id))) with
  | Except.error _ => Except.error WorkflowError.multipleResults
  | Except.ok none => Except.ok none
  | Except.ok (some a) =>
    if a.user_id ≠ current_user_id then Except.error WorkflowError.forbidden
    else Except.ok (some a)

/-- The f-string key "{attempt_id}:{quiz_id}:{question_id}" of an answer
cache entry. -/
def answer_key (attempt_id quiz_id question_id : Nat) : String :=
  toString attempt_id ++ ":" ++ toString quiz_id ++ ":" ++ toString question_id

/-- AttemptRepository.save_answer: one redis set with
ex = quiz_completion_time * 60 + 120. -/
def save_answer (cache : AnswerCache) (attempt_id quiz_id question_id answer_id quiz_completion_time : Nat) :
    AnswerCache :=
  redisSet cache (answer_key attempt_id quiz_id question_id) answer_id
    (quiz_completion_time * 60 + 120)

/-- AttemptRepository.user_has_attempts: the SELECT count(...) query yields a
single row holding the count; the source then compares the number of yielded
rows (always one) against 2. -/
def user_has_attempts (db : Db) (quiz_id user_id : Nat) : Bool :=
  let used_attempts : List Nat :=
    [(db.attempts.filter (fun a => decide (a.user_id = user_id ∧ a.quiz_id = quiz_id))).length]
  if used_attempts.length ≥ 2 then false else true

/-- AttemptRepository.has_started_attempt: fetches the rows for the
(user, quiz) pair through scalar_one_or_none, then asks whether the single
attempt, when there is one, is still ongoing. -/
def has_started_attempt (db : Db) (user_id quiz_id now : Nat) : Except Unit Bool :=
  match scalar_one_or_none
      (db.attempts.filter (fun a => decide (a.user_id = user_id ∧ a.quiz_id = quiz_id))) with
  | Except.error _ => Except.error ()
  | Except.ok none => Except.ok false
  | Except.ok (some attempt) =>
    if ¬ attempt_is_completed attempt now then Except.ok true
    else Except.ok false

/-- AttemptRepository.create_attempt: inserts the row with start_time = now,
the placeholder spent_time f"{completion_time}:00", and
end_time = start_time + timedelta(minutes=completion_time).  The quiz
relationship of the new row resolves to the quiz being attempted. -/
def create_attempt (db : Db) (quiz : Quiz) (user_id new_id now : Nat) : Attempt × Db :=
  let attempt : Attempt :=
    { id := new_id
      quiz_id := quiz.id
      user_id := user_id
      start_time := now
      end_time := now + quiz.completion_time * 60
      spent_time := toString quiz.completion_time ++ ":00"
      result := none
      quiz := quiz }
  (attempt, { db with attempts := db.attempts ++ [attempt] })

/-- Failure modes of the start route (app/quizzes/router.py,
start_quiz_attempt), plus the unhandled MultipleResultsFound. -/
inductive StartError where
  | quizNotFound
  | quizNotReady
  | quotaExhausted
  | ongoingAttempt
  | multipleResults
deriving DecidableEq

/-- The response body of the start route: the new attempt id and the quiz
snapshot (AttemptReturn). -/
structure AttemptReturn where
  id : Nat
  quiz : Quiz
deriving DecidableEq

/-- The start route: quiz lookup (membership checks are delegated to the quiz
catalog and out of scope), fully_created gate, quota gate, ongoing-attempt
gate, then the insert.  new_id stands for the id the database assigns. -/
def start_quiz_attempt (db : Db) (quiz_id user_id new_id now : Nat) :
    Db × Except StartError AttemptReturn :=
  match scalar_one_or_none (db.quizzes.filter (fun q => decide (q.id = quiz_id))) with
  | Except.error _ => (db, Except.error StartError.multipleResults)
  | Except.ok none => (db, Except.error StartError.quizNotFound)
  | Except.ok (some quiz) =>
    if ¬ quiz.fully_created then (db, Except.error StartError.quizNotReady)
    else if ¬ user_has_attempts db quiz_id user_id then
      (db, Except.error StartError.quotaExhausted)
    else
      match has_started_attempt db user_id quiz_id now with
      | Except.error _ => (db, Except.error StartError.multipleResults)
      | Except.ok true => (db, Except.error StartError.ongoingAttempt)
      | Except.ok false =>
        let (attempt, db2) := create_attempt db quiz user_id new_id now
        (db2, Except.ok { id := attempt.id, quiz := attempt.quiz })

/-- The answer route (router.answer_question): attempt lookup and ownership,
completion gate, question lookup and quiz membership, answer lookup and
question membership, then the one cache write.  The relational state passes
through untouched because the handler performs no attempt-row write. -/
def answer_question (db : Db) (cache : AnswerCache)
    (attempt_id question_id answer_id user_id now : Nat) :
    Db × AnswerCache × Except WorkflowError String :=
  match get_attempt_by_id db attempt_id user_id with
  | Except.error e => (db, cache, Except.error e)
  | Except.ok none => (db, cache, Except.error WorkflowError.attemptNotFound)
  | Except.ok (some attempt) =>
    if attempt_is_completed attempt now then
      (db, cache, Except.error WorkflowError.alreadyCompleted)
    else
      match scalar_one_or_none (db.questions.filter (fun q => decide (q.id = question_id))) with
      | Except.error _ => (db, cache, Except.error WorkflowError.multipleResults)
      | Except.ok none => (db, cache, Except.error WorkflowError.questionNotFound)
      | Except.ok (some question) =>
        if question.quiz_id ≠ attempt.quiz_id then
          (db, cache, Except.error WorkflowError.quizMismatch)
        else
          match scalar_one_or_none (db.answers.filter (fun x => decide (x.id = answer_id))) with
          | Except.error _ => (db, cache, Except.error WorkflowError.multipleResults)
          | Except.ok none => (db, cache, Except.error WorkflowError.answerNotFound)
          | Except.ok (some answer) =>
            if answer.question_id ≠ question.id then
              (db, cache, Except.error WorkflowError.questionMismatch)
            else
              (db,
               save_answer cache attempt.id attempt.quiz_id question_id answer_id
                 attempt.quiz.completion_time,
               Except.ok "Answer received")

/-- Zero-padded two-digit field of strftime. -/
def pad2 (n : Nat) : String :=
  if n < 10 then "0" ++ toString n else toString n

/-- The spent-time string (datetime(2010,1,1) + spent).strftime("%M:%S") for
an elapsed duration of e seconds: the minutes field wraps modulo 60. -/
def spent_time_format (e : Nat) : String :=
  pad2 (e / 60 % 60) ++ ":" ++ pad2 (e % 60)

/-- The redis.keys scan of calculate_attempt_result: the glob pattern
"{attempt_id}*" keeps every key whose text starts with the decimal form of
attempt_id, with no delimiter after it. -/
def scanned_answer_keys (attempt_id : Nat) (cache : AnswerCache) : List String :=
  (cache.map (fun e => e.1)).filter (fun k => (toString attempt_id).data.isPrefixOf k.data)

/-- The redis.mget over the scanned keys: the stored answer ids, in scan
order (every scanned key is present, since the keys came from the store). -/
def scanned_answer_values (attempt_id : Nat) (cache : AnswerCache) : List Nat :=
  (scanned_answer_keys attempt_id cache).filterMap
    (fun k => (redisGet cache k).map (fun v => v.1))

/-- The SELECT of Answer rows whose id is among the cached values. -/
def resolve_answers (db : Db) (values : List Nat) : List Answer :=
  db.answers.filter (fun a => values.contains a.id)

/-- The correct-answer count loop of calculate_attempt_result. -/
def count_correct (instances : List Answer) : Nat :=
  (instances.filter (fun a => a.is_correct)).length

/-- The per-question record of the archive document: the first resolved
answer belonging to the question, or nulls when there is none. -/
def question_result_doc (instances : List Answer) (question : Question) : QuestionResultDoc :=
  let user_answer := instances.filter (fun a => decide (a.question_id = question.id))
  { title := question.title
    answers := question.answers.map (fun a => a.title)
    user_answer := (user_answer.head?).map (fun a => a.title)
    is_correct := (user_answer.head?).map (fun a => a.is_correct) }

/-- AttemptRepository.calculate_attempt_result: format the elapsed time, scan
and resolve the cached answers, count the correct ones, update the attempt
row (spent_time, result), archive the document for 48 hours, and return the
"{result}/{questions_count}" string. -/
def calculate_attempt_result (db : Db) (cache : AnswerCache) (archive : ResultArchive)
    (attempt : Attempt) (timestamp : Nat) : Db × ResultArchive × String :=
  let spent_time_str := spent_time_format (timestamp - attempt.start_time)
  let answers_values := scanned_answer_values attempt.id cache
  let answers_instances := resolve_answers db answers_values
  let result := count_correct answers_instances
  let db2 : Db :=
    { db with attempts := db.attempts.map (fun x =>
        if x.id = attempt.id then { x with spent_time := spent_time_str, result := some result } else x) }
  let doc : ResultDoc :=
    { quiz := attempt.quiz.title
      result := toString result ++ "/" ++ toString attempt.quiz.questions_count
      spent_time := spent_time_str ++ "/" ++ toString attempt.quiz.completion_time ++ ":00"
      questions := attempt.quiz.questions.map (question_result_doc answers_instances) }
  let archive2 := redisSet archive ("attempt-answers:" ++ toString attempt.id) doc (48 * 60 * 60)
  (db2, archive2, toString result ++ "/" ++ toString attempt.quiz.questions_count)

/-- The complete route (router.complete_attempt): attempt lookup and
ownership, completion gate, then scoring.  The asynchronous score
recomputation tasks are modelled separately as set_global_score and
set_company_score. -/
def complete_attempt (db : Db) (cache : AnswerCache) (archive : ResultArchive)
    (attempt_id user_id now : Nat) : Db × ResultArchive × Except WorkflowError String :=
  match get_attempt_by_id db attempt_id user_id with
  | Except.error e => (db, archive, Except.error e)
  | Except.ok none => (db, archive, Except.error WorkflowError.attemptNotFound)
  | Except.ok (some attempt) =>
    if attempt_is_completed attempt now then
      (db, archive, Except.error WorkflowError.alreadyCompleted)
    else
      let (db2, archive2, result) := calculate_attempt_result db cache archive attempt now
      (db2, archive2, Except.ok result)

/-- AttemptRepository.get_attempt_results: a plain archive read. -/
def get_attempt_results (archive : ResultArchive) (attempt_id : Nat) : Option ResultDoc :=
  (redisGet archive ("attempt-answers:" ++ toString attempt_id)).map (fun v => v.1)

/-- The results route (router.get_attempt_answers): attempt lookup and
ownership, 403 while the attempt is not completed, then the archive read,
404 when the archived document is gone. -/
def get_attempt_answers (db : Db) (archive : ResultArchive) (attempt_id user_id now : Nat) :
    Except WorkflowError ResultDoc :=
  match get_attempt_by_id db attempt_id user_id with
  | Except.error e => Except.error e
  | Except.ok none => Except.error WorkflowError.attemptNotFound
  | Except.ok (some attempt) =>
    if ¬ attempt_is_completed attempt now then Except.error WorkflowError.forbidden
    else
      match get_attempt_results archive attempt_id with
      | none => Except.error WorkflowError.resultsNotFound
      | some doc => Except.ok doc

/-- The attempts selected by UserRepository.set_global_score: every attempt
row of the user. -/
def global_score_attempts (db : Db) (user_id : Nat) : List Attempt :=
  db.attempts.filter (fun a => decide (a.user_id = user_id))

/-- The attempts selected by UserRepository.set_company_score.  The WHERE
clause joins Attemp against Quiz (Attemp.quiz_id == Quiz.id) and Company
(Company.id == Quiz.company_id) but never compares anything against the
company_id argument, so a row qualifies whenever its quiz row and the company
row of that quiz exist. -/
def company_score_attempts (db : Db) (user_id : Nat) : List Attempt :=
  db.attempts.filter (fun a => decide (a.user_id = user_id) &&
    db.quizzes.any (fun q => decide (q.id = a.quiz_id) && db.company_ids.contains q.company_id))

/-- The average sum(result) / sum(questions_count) over a list of attempts.
Python raises when a result is NULL (sum over None is a TypeError) or when
the denominator is zero (ZeroDivisionError); both become none. -/
def average_score (attempts : List Attempt) : Option Rat :=
  let questions_count := (attempts.map (fun a => a.quiz.questions_count)).sum
  if attempts.any (fun a => a.result.isNone) then none
  else if questions_count = 0 then none
  else some (((attempts.map (fun a => (a.result).getD 0)).sum : Rat) / (questions_count : Rat))

/-- UserRepository.set_global_score: recompute the average of the user over
all of their attempts and store it in users.overall_avg_score. -/
def set_global_score (db : Db) (user_id : Nat) : Option Db :=
  (average_score (global_score_attempts db user_id)).map (fun avg =>
    { db with users := db.users.map (fun u =>
        if u.id = user_id then { u with overall_avg_score := avg } else u) })

/-- UserRepository.set_company_score: recompute an average over the rows
selected by company_score_attempts and store it in the average_score column
of the (user_id, company_id) company_user row — the only place the
company_id argument is used. -/
def set_company_score (db : Db) (user_id company_id : Nat) : Option Db :=
  (average_score (company_score_attempts db user_id)).map (fun avg =>
    { db with company_users := db.company_users.map (fun cu =>
        if cu.user_id = user_id ∧ cu.company_id = company_id then { cu with average_score := avg } else cu) })

/-- The attempts the claim scopes a company average to: the attempts of the
user at quizzes owned by the given company.  Stated from the wording of the
spec, for
comparison against company_score_attempts. -/
def company_attempts_per_claim (db : Db) (user_id company_id : Nat) : List Attempt :=
  db.attempts.filter (fun a => decide (a.user_id = user_id) &&
    db.quizzes.any (fun q => decide (q.id = a.quiz_id) && decide (q.company_id = company_id)))

/-- The completion predicate the claim states: now outside the full-timestamp
interval of the attempt window, or the spent_time minutes overwritten.
Stated from the wording of the spec, for comparison against
attempt_is_completed. -/
def completed_per_claim (attempt : Attempt) (now : Nat) : Prop :=
  ¬ (attempt.start_time ≤ now ∧ now ≤ attempt.end_time) ∨
    spent_minutes attempt.spent_time ≠ some attempt.quiz.completion_time

/- Concrete fixtures used by witnesses and counterexamples: a fully created
quiz with two questions of two answers each, one correct per question. -/

/-- Correct answer of the first fixture question. -/
def ansA : Answer :=
  { id := 201, title := "A", is_correct := true, question_id := 101 }

/-- Wrong answer of the first fixture question. -/
def ansB : Answer :=
  { id := 202, title := "B", is_correct := false, question_id := 101 }

/-- Correct answer of the second fixture question. -/
def ansC : Answer :=
  { id := 203, title := "C", is_correct := true, question_id := 102 }

/-- Wrong answer of the second fixture question. -/
def ansD : Answer :=
  { id := 204, title := "D", is_correct := false, question_id := 102 }

/-- First fixture question. -/
def questionOne : Question :=
  { id := 101, title := "Q1", quiz_id := 11, answers := [ansA, ansB] }

/-- Second fixture question. -/
def questionTwo : Question :=
  { id := 102, title := "Q2", quiz_id := 11, answers := [ansC, ansD] }

/-- Fixture quiz: company 1, 15-minute window, fully created. -/
def quizEleven : Quiz :=
  { id := 11, title := "Quiz", company_id := 1, fully_created := true,
    completion_time := 15, questions := [questionOne, questionTwo] }

/-- Fixture attempt of user 7 at the fixture quiz, freshly started at
10:00:00 of day zero (36000 s), window closing at 10:15:00 (36900 s). -/
def attemptOne : Attempt :=
  { id := 1, quiz_id := 11, user_id := 7, start_time := 36000, end_time := 36900,
    spent_time := "15:00", result := none, quiz := quizEleven }

/-- An empty relational state to override per fixture. -/
def emptyDb : Db :=
  { attempts := [], quizzes := [], questions := [], answers := [],
    users := [], company_users := [], company_ids := [] }

/- Helper lemmas about the key-value model, shared by several claims. -/

theorem data_isPrefixOf_append (s t : String) : s.data.isPrefixOf (s ++ t).data = true := by
  rw [String.data_append, List.isPrefixOf_iff_prefix]
  exact List.prefix_append s.data t.data

theorem toString_isPrefixOf_answer_key (a qz qs : Nat) :
    (toString a).data.isPrefixOf (answer_key a qz qs).data = true := by
  rw [answer_key, List.isPrefixOf_iff_prefix, String.data_append, String.data_append,
    String.data_append, String.data_append, List.append_assoc, List.append_assoc,
    List.append_assoc]
  exact List.prefix_append _ _

theorem redisGet_redisSet_self {α : Type} (store : KvStore α) (key : String) (v : α) (ttl : Nat) :
    redisGet (redisSet store key v ttl) key = some (v, ttl) := by
  simp [redisGet, redisSet, List.find?]

theorem find?_filter_ne {α : Type} (l : List (String × α × Nat)) (key other : String) (h : other ≠ key) :
    List.find? (fun e => e.1 = other) (l.filter (fun e => e.1 ≠ key)) =
      List.find? (fun e => e.1 = other) l := by
  induction l with
  | nil => rfl
  | cons e t ih =>
    by_cases he : e.1 = other
    · have hk : e.1 ≠ key := by rw [he]; exact h
      rw [List.filter_cons_of_pos (by simpa using hk),
        List.find?_cons_of_pos _ (by simpa using he),
        List.find?_cons_of_pos _ (by simpa using he)]
    · by_cases hk : e.1 = key
      · rw [List.filter_cons_of_neg (by simpa using hk),
          List.find?_cons_of_neg _ (by simpa using he), ih]
      · rw [List.filter_cons_of_pos (by simpa using hk),
          List.find?_cons_of_neg _ (by simpa using he),
          List.find?_cons_of_neg _ (by simpa using he), ih]

theorem redisGet_redisSet_other {α : Type} (store : KvStore α) (key other : String) (v : α)
    (ttl : Nat) (h : other ≠ key) :
    redisGet (redisSet store key v ttl) other = redisGet store other := by
  simp only [redisGet, redisSet]
  rw [List.find?_cons_of_neg _ (by simpa using fun hk => h hk.symm)]
  rw [find?_filter_ne store key other h]

theorem find?_eq_of_mem_nodup {α : Type} (l : List (String × α × Nat)) (key : String) (v : α)
    (ttl : Nat) (hmem : (key, v, ttl) ∈ l) (hnodup : (l.map (fun e => e.1)).Nodup) :
    List.find? (fun e => e.1 = key) l = some (key, v, ttl) := by
  induction l with
  | nil => cases hmem
  | cons e t ih =>
    rcases List.mem_cons.mp hmem with he | ht
    · subst he
      exact List.find?_cons_of_pos _ (by simp)
    · have hne : e.1 ≠ key := by
        intro hk
        have hkey : key ∈ t.map (fun e => e.1) := List.mem_map.mpr ⟨_, ht, rfl⟩
        rw [List.map_cons, List.nodup_cons] at hnodup
        exact hnodup.1 (hk ▸ hkey)
      rw [List.find?_cons_of_neg _ (by simpa using hne)]
      exact ih ht (by rw [List.map_cons, List.nodup_cons] at hnodup; exact hnodup.2)

/-- C1, counterexample: at 10:05 of the day after a 10:00-10:15 attempt
window, the full-timestamp predicate of the claim says completed, but
attempt_is_completed (which drops the dates) says not completed. -/
theorem c1_counterexample :
    attempt_is_completed attemptOne 122700 = false ∧ completed_per_claim attemptOne 122700 := by
  constructor
  · decide
  · exact Or.inl (by decide)

/-- C1 (amended): an attempt counts as completed iff the time-of-day of now
lies outside the time-of-day interval of [start_time, end_time] (dates are
discarded) OR the minutes component of spent_time no longer equals the
completion_time of the quiz; the answer operation rejects exactly when this
predicate holds and the result-viewing operation rejects exactly when it
does not. -/
theorem c1_completion_predicate (a : Attempt) (t : Nat) :
    (attempt_is_completed a t = true ↔
      (¬ (a.start_time % 86400 ≤ t % 86400 ∧ t % 86400 ≤ a.end_time % 86400) ∨
        spent_minutes a.spent_time ≠ some a.quiz.completion_time)) ∧
    (∀ db cache question_id answer_id,
      db.attempts.filter (fun x => decide (x.id = a.id)) = [a] →
      attempt_is_completed a t = true →
      answer_question db cache a.id question_id answer_id a.user_id t =
        (db, cache, Except.error WorkflowError.alreadyCompleted)) ∧
    (∀ db archive,
      db.attempts.filter (fun x => decide (x.id = a.id)) = [a] →
      attempt_is_completed a t = false →
      get_attempt_answers db archive a.id a.user_id t = Except.error WorkflowError.forbidden) := by
  refine ⟨?_, ?_, ?_⟩
  · unfold attempt_is_completed time_is_between
    by_cases h1 : a.start_time % 86400 ≤ t % 86400 ∧ t % 86400 ≤ a.end_time % 86400 <;>
      by_cases h2 : spent_minutes a.spent_time = some a.quiz.completion_time <;>
        simp [h1, h2]
  · intro db cache question_id answer_id hrow hdone
    unfold answer_question get_attempt_by_id
    rw [hrow]
    simp [scalar_one_or_none, hdone]
  · intro db archive hrow hnot
    unfold get_attempt_answers get_attempt_by_id
    rw [hrow]
    simp [scalar_one_or_none, hnot]

/-- C1, witness: a concrete run of the amended theorem: shortly after the
closing time-of-day of the window the answer operation is rejected as already
completed. -/
theorem c1_completion_predicate_witness :
    answer_question { emptyDb with attempts := [attemptOne] } [] 1 101 201 7 37000 =
      ({ emptyDb with attempts := [attemptOne] }, [], Except.error WorkflowError.alreadyCompleted) :=
  (c1_completion_predicate attemptOne 37000).2.1 _ [] 101 201 (by decide) (by decide)

/-- Second fixture attempt of the same user at the same quiz, already
completed (spent_time overwritten, result recorded). -/
def attemptTwo : Attempt :=
  { id := 2, quiz_id := 11, user_id := 7, start_time := 30000, end_time := 30900,
    spent_time := "03:20", result := some 1, quiz := quizEleven }

/-- Relational state in which user 7 has both attempt rows for quiz 11. -/
def dbTwoAttempts : Db :=
  { emptyDb with attempts := [attemptOne, attemptTwo], quizzes := [quizEleven] }

/-- C2: the quota check never fires — user_has_attempts compares the number
of rows yielded by a count query (always one) against 2, so it returns true
for every state; with two existing rows for the pair, start fails with the
unhandled MultipleResultsFound of has_started_attempt, not with the
quota-exhausted rejection, and inserts nothing. -/
theorem c2_quota_check_never_fires :
    (∀ db quiz_id user_id, user_has_attempts db quiz_id user_id = true) ∧
    start_quiz_attempt dbTwoAttempts 11 7 3 36300 =
      (dbTwoAttempts, Except.error StartError.multipleResults) := by
  constructor
  · intro db quiz_id user_id
    rfl
  · decide

/-- C3: completing an attempt that is already completed fails with the
already-completed rejection and returns the relational state and the archive
exactly as they were, so the stored result and spent_time are mutated only
by the one successful completion. -/
theorem c3_recomplete_rejected (db : Db) (cache : AnswerCache) (archive : ResultArchive)
    (a : Attempt) (now : Nat)
    (hrow : db.attempts.filter (fun x => decide (x.id = a.id)) = [a])
    (hdone : attempt_is_completed a now = true) :
    complete_attempt db cache archive a.id a.user_id now =
      (db, archive, Except.error WorkflowError.alreadyCompleted) := by
  unfold complete_attempt get_attempt_by_id
  rw [hrow]
  simp [scalar_one_or_none, hdone]

/-- C3, witness: re-completing the already-completed fixture attempt is
rejected and leaves the state unchanged. -/
theorem c3_recomplete_rejected_witness :
    complete_attempt dbTwoAttempts [] [] 2 7 30500 =
      (dbTwoAttempts, [], Except.error WorkflowError.alreadyCompleted) :=
  c3_recomplete_rejected dbTwoAttempts [] [] attemptTwo 30500 (by decide) (by decide)

/-- C10: has_started_attempt reaches the MultipleResultsFound error exactly
when two or more attempt rows exist for the (user, quiz) pair; with at most
one row it returns a boolean verdict. -/
theorem c10_has_started_attempt_raises_on_two (db : Db) (user_id quiz_id now : Nat) :
    has_started_attempt db user_id quiz_id now = Except.error () ↔
      2 ≤ (db.attempts.filter (fun a => decide (a.user_id = user_id ∧ a.quiz_id = quiz_id))).length := by
  unfold has_started_attempt scalar_one_or_none
  generalize db.attempts.filter (fun a => decide (a.user_id = user_id ∧ a.quiz_id = quiz_id)) = l
  rcases l with _ | ⟨x, _ | ⟨y, t⟩⟩
  · simp
  · by_cases hc : attempt_is_completed x now = true <;> simp [hc]
  · exact iff_of_true rfl (by simp)

/-- C6: for an attempt owned by the requester, result viewing is forbidden
while the completion predicate is false; once it is true, the archived
document is returned when the archive entry is present and the request fails
with the not-found rejection when it has expired, even though the attempt row
is still present. -/
theorem c6_results_gating (db : Db) (archive : ResultArchive) (a : Attempt) (now : Nat)
    (hrow : db.attempts.filter (fun x => decide (x.id = a.id)) = [a]) :
    (attempt_is_completed a now = false →
      get_attempt_answers db archive a.id a.user_id now = Except.error WorkflowError.forbidden) ∧
    (attempt_is_completed a now = true → get_attempt_results archive a.id = none →
      get_attempt_answers db archive a.id a.user_id now = Except.error WorkflowError.resultsNotFound) ∧
    (∀ doc : ResultDoc, attempt_is_completed a now = true →
      get_attempt_results archive a.id = some doc →
      get_attempt_answers db archive a.id a.user_id now = Except.ok doc) := by
  refine ⟨?_, ?_, ?_⟩
  · intro hnot
    unfold get_attempt_answers get_attempt_by_id
    rw [hrow]
    simp [scalar_one_or_none, hnot]
  · intro hdone hnone
    unfold get_attempt_answers get_attempt_by_id
    rw [hrow]
    simp [scalar_one_or_none, hdone, hnone]
  · intro doc hdone hsome
    unfold get_attempt_answers get_attempt_by_id
    rw [hrow]
    simp [scalar_one_or_none, hdone, hsome]

/-- C6, witness: the completed fixture attempt with an empty archive is
answered with the not-found rejection even though its row exists. -/
theorem c6_results_gating_witness :
    get_attempt_answers dbTwoAttempts [] 2 7 30500 = Except.error WorkflowError.resultsNotFound :=
  (c6_results_gating dbTwoAttempts [] attemptTwo 30500 (by decide)).2.1 (by decide) (by decide)

/-- C5: a valid answer submission performs exactly one cache write, keyed by
(attempt_id, quiz_id, question_id), holding the chosen answer id with ttl
completion_time * 60 + 120 seconds; the write silently replaces any earlier
value under the same key, leaves every other key untouched, and the
relational state passes through unchanged. -/
theorem c5_answer_single_cache_write (db : Db) (cache : AnswerCache) (a : Attempt)
    (q : Question) (ans : Answer) (question_id answer_id now : Nat)
    (hrow : db.attempts.filter (fun x => decide (x.id = a.id)) = [a])
    (hnotdone : attempt_is_completed a now = false)
    (hq : db.questions.filter (fun x => decide (x.id = question_id)) = [q])
    (hqq : q.quiz_id = a.quiz_id)
    (hans : db.answers.filter (fun x => decide (x.id = answer_id)) = [ans])
    (haq : ans.question_id = q.id) :
    answer_question db cache a.id question_id answer_id a.user_id now =
      (db, redisSet cache (answer_key a.id a.quiz_id question_id) answer_id
        (a.quiz.completion_time * 60 + 120), Except.ok "Answer received") ∧
    redisGet (redisSet cache (answer_key a.id a.quiz_id question_id) answer_id
        (a.quiz.completion_time * 60 + 120)) (answer_key a.id a.quiz_id question_id) =
      some (answer_id, a.quiz.completion_time * 60 + 120) ∧
    (∀ k : String, k ≠ answer_key a.id a.quiz_id question_id →
      redisGet (redisSet cache (answer_key a.id a.quiz_id question_id) answer_id
        (a.quiz.completion_time * 60 + 120)) k = redisGet cache k) := by
  refine ⟨?_, redisGet_redisSet_self _ _ _ _, fun k hk => redisGet_redisSet_other _ _ _ _ _ hk⟩
  unfold answer_question get_attempt_by_id save_answer
  rw [hrow, hq, hans]
  simp [scalar_one_or_none, hnotdone, hqq, haq]

/-- Relational state for the answering and completion witnesses: the fixture
attempt with the fixture quiz content loaded. -/
def dbAnswering : Db :=
  { emptyDb with
      attempts := [attemptOne]
      questions := [questionOne, questionTwo]
      answers := [ansA, ansB, ansC, ansD] }

/-- C5, witness: submitting answer 202 for question 101 during the fixture
attempt writes the one cache entry with a 1020-second ttl. -/
theorem c5_answer_single_cache_write_witness :
    answer_question dbAnswering [] 1 101 202 7 36300 =
      (dbAnswering, redisSet [] (answer_key 1 11 101) 202 (15 * 60 + 120),
        Except.ok "Answer received") :=
  (c5_answer_single_cache_write dbAnswering [] attemptOne questionOne ansB 101 202 36300
    (by decide) (by decide) (by decide) (by decide) (by decide) (by decide)).1

/-- C8: a successful start appends exactly one attempt row, whose
start_time is now, end_time is now plus completion_time minutes, and
spent_time is the placeholder "{completion_time}:00", and responds with the
new attempt id and the quiz snapshot. -/
theorem c8_start_inserts_attempt (db : Db) (quiz : Quiz) (user_id new_id now : Nat)
    (hquiz : db.quizzes.filter (fun x => decide (x.id = quiz.id)) = [quiz])
    (hfc : quiz.fully_created = true)
    (hongoing : has_started_attempt db user_id quiz.id now = Except.ok false) :
    start_quiz_attempt db quiz.id user_id new_id now =
      ({ db with attempts := db.attempts ++
          [{ id := new_id, quiz_id := quiz.id, user_id := user_id, start_time := now,
             end_time := now + quiz.completion_time * 60,
             spent_time := toString quiz.completion_time ++ ":00",
             result := none, quiz := quiz }] },
        Except.ok { id := new_id, quiz := quiz }) := by
  unfold start_quiz_attempt
  rw [hquiz]
  simp [scalar_one_or_none, hfc, user_has_attempts, hongoing, create_attempt]

/-- Relational state holding only the fixture quiz. -/
def dbStart : Db :=
  { emptyDb with quizzes := [quizEleven] }

/-- C8, witness: starting the fixture quiz at 36000 s inserts exactly the
fixture attempt row and returns its id with the quiz snapshot. -/
theorem c8_start_inserts_attempt_witness :
    start_quiz_attempt dbStart 11 7 1 36000 =
      ({ dbStart with attempts := [attemptOne] }, Except.ok { id := 1, quiz := quizEleven }) :=
  c8_start_inserts_attempt dbStart quizEleven 7 1 36000 (by decide) (by decide) (by decide)

theorem isPrefixOf_trans {l1 l2 l3 : List Char} (h1 : l1.isPrefixOf l2 = true)
    (h2 : l2.isPrefixOf l3 = true) : l1.isPrefixOf l3 = true := by
  rw [List.isPrefixOf_iff_prefix] at h1 h2 ⊢
  exact h1.trans h2

/-- C9: the completion scan collects every cache key textually starting with
the decimal form of the attempt id, so when the decimal id of another attempt
extends it (such as 1 and 10), the cached entries of that other attempt are scanned
too, their answer ids enter the resolved value list, and the returned result
counts the correct answers over exactly that list. -/
theorem c9_scan_crosses_attempts (db : Db) (cache : AnswerCache) (archive : ResultArchive)
    (a : Attempt) (b_id qz qs ans_id ttl now : Nat)
    (_hne : a.id ≠ b_id)
    (hdigits : (toString a.id).data.isPrefixOf (toString b_id).data = true)
    (hnodup : (cache.map (fun e => e.1)).Nodup)
    (hmem : (answer_key b_id qz qs, ans_id, ttl) ∈ cache) :
    answer_key b_id qz qs ∈ scanned_answer_keys a.id cache ∧
    ans_id ∈ scanned_answer_values a.id cache ∧
    (calculate_attempt_result db cache archive a now).2.2 =
      toString (count_correct (resolve_answers db (scanned_answer_values a.id cache))) ++
        "/" ++ toString a.quiz.questions_count := by
  have hkeypre : (toString a.id).data.isPrefixOf (answer_key b_id qz qs).data = true :=
    isPrefixOf_trans hdigits (toString_isPrefixOf_answer_key b_id qz qs)
  have hkey : answer_key b_id qz qs ∈ scanned_answer_keys a.id cache := by
    unfold scanned_answer_keys
    exact List.mem_filter.mpr
      ⟨List.mem_map.mpr ⟨(answer_key b_id qz qs, ans_id, ttl), hmem, rfl⟩, hkeypre⟩
  refine ⟨hkey, ?_, rfl⟩
  unfold scanned_answer_values
  refine List.mem_filterMap.mpr ⟨answer_key b_id qz qs, hkey, ?_⟩
  have hget : redisGet cache (answer_key b_id qz qs) = some (ans_id, ttl) := by
    unfold redisGet
    rw [find?_eq_of_mem_nodup cache (answer_key b_id qz qs) ans_id ttl hmem hnodup]
    rfl
  rw [hget]
  rfl

/-- C9, witness: with attempt ids 1 and 10, the single cached entry of
attempt 10 is scanned, resolved and counted when attempt 1 completes. -/
theorem c9_scan_crosses_attempts_witness :
    answer_key 10 11 101 ∈ scanned_answer_keys 1 [(answer_key 10 11 101, 77, 900)] ∧
    77 ∈ scanned_answer_values 1 [(answer_key 10 11 101, 77, 900)] ∧
    (calculate_attempt_result emptyDb [(answer_key 10 11 101, 77, 900)] [] attemptOne 36300).2.2 =
      toString (count_correct (resolve_answers emptyDb
          (scanned_answer_values 1 [(answer_key 10 11 101, 77, 900)]))) ++
        "/" ++ toString attemptOne.quiz.questions_count :=
  c9_scan_crosses_attempts emptyDb [(answer_key 10 11 101, 77, 900)] [] attemptOne 10 11 101 77
    900 36300 (by decide) (by decide) (by decide) (by decide)

/-- A second fixture quiz, owned by company 2, with three questions. -/
def quizTwelve : Quiz :=
  { id := 12, title := "Quiz2", company_id := 2, fully_created := true,
    completion_time := 10,
    questions := [
      { id := 103, title := "Q3", quiz_id := 12, answers := [] },
      { id := 104, title := "Q4", quiz_id := 12, answers := [] },
      { id := 105, title := "Q5", quiz_id := 12, answers := [] }] }

/-- Completed fixture attempt: 1 of the 2 questions of quiz 11 correct. -/
def attemptSeven1 : Attempt :=
  { id := 31, quiz_id := 11, user_id := 7, start_time := 0, end_time := 900,
    spent_time := "07:10", result := some 1, quiz := quizEleven }

/-- Completed fixture attempt: 3 of the 3 questions of quiz 12 correct. -/
def attemptSeven2 : Attempt :=
  { id := 32, quiz_id := 12, user_id := 7, start_time := 0, end_time := 600,
    spent_time := "05:00", result := some 3, quiz := quizTwelve }

/-- Relational state for the score recomputation: user 7 has one completed
attempt at one quiz of each company. -/
def dbScores : Db :=
  { emptyDb with
      attempts := [attemptSeven1, attemptSeven2]
      quizzes := [quizEleven, quizTwelve]
      users := [{ id := 7, overall_avg_score := 0 }]
      company_users := [{ user_id := 7, company_id := 1, average_score := 0 },
        { user_id := 7, company_id := 2, average_score := 0 }]
      company_ids := [1, 2] }

/-- C7: evaluation at the failing input.  The global average is the claimed
sum over all attempts, but set_company_score selects the very same
unrestricted attempt list — its WHERE clause never compares against the
company — so the company-1 row receives (1+3)/(2+3) = 4/5 instead of the
company-scoped 1/2. -/
theorem c7_company_score_ignores_company :
    (set_global_score dbScores 7).map
        (fun d => d.users.map (fun u => (u.id, u.overall_avg_score))) =
      some [(7, (4 : Rat) / 5)] ∧
    company_score_attempts dbScores 7 = [attemptSeven1, attemptSeven2] ∧
    company_attempts_per_claim dbScores 7 1 = [attemptSeven1] ∧
    average_score [attemptSeven1] = some ((1 : Rat) / 2) ∧
    (set_company_score dbScores 7 1).map
        (fun d => d.company_users.map (fun cu => (cu.user_id, cu.company_id, cu.average_score))) =
      some [(7, 1, (4 : Rat) / 5), (7, 2, 0)] ∧
    (4 : Rat) / 5 ≠ (1 : Rat) / 2 := by
  refine ⟨?_, by decide, by decide, ?_, ?_, by norm_num⟩
  · simp [set_global_score, average_score, global_score_attempts, dbScores,
      attemptSeven1, attemptSeven2, quizEleven, quizTwelve, Quiz.questions_count, emptyDb]
    norm_num
  · simp [average_score, attemptSeven1, quizEleven, Quiz.questions_count]
  · simp [set_company_score, average_score, company_score_attempts, dbScores,
      attemptSeven1, attemptSeven2, quizEleven, quizTwelve, Quiz.questions_count, emptyDb]
    norm_num

/-- C4: Scenario B — on a two-question quiz, with exactly one cached answer,
for question one, that is correct, completing the attempt returns "1/2" and
archives a document whose first question carries the title of the chosen answer
and correctness while the second question carries null for both. -/
theorem c4_scenario_b (db : Db) (cache : AnswerCache) (archive : ResultArchive)
    (a : Attempt) (q1 q2 : Question) (ans : Answer) (now ttl : Nat)
    (hrow : db.attempts.filter (fun x => decide (x.id = a.id)) = [a])
    (hnotdone : attempt_is_completed a now = false)
    (hqs : a.quiz.questions = [q1, q2])
    (hcache : cache = [(answer_key a.id a.quiz_id q1.id, ans.id, ttl)])
    (hresolve : resolve_answers db [ans.id] = [ans])
    (hcorrect : ans.is_correct = true)
    (hq1 : ans.question_id = q1.id)
    (hq12 : q1.id ≠ q2.id) :
    (complete_attempt db cache archive a.id a.user_id now).2.2 = Except.ok "1/2" ∧
    ∃ doc : ResultDoc,
      get_attempt_results (complete_attempt db cache archive a.id a.user_id now).2.1 a.id =
        some doc ∧
      doc.questions.map (fun q => (q.user_answer, q.is_correct)) =
        [(some ans.title, some true), (none, none)] := by
  have hkeys : scanned_answer_keys a.id cache = [answer_key a.id a.quiz_id q1.id] := by
    subst hcache
    unfold scanned_answer_keys
    simp [toString_isPrefixOf_answer_key]
  have hvals : scanned_answer_values a.id cache = [ans.id] := by
    unfold scanned_answer_values
    rw [hkeys, hcache]
    simp [redisGet, List.find?]
  have hnq2 : ans.question_id ≠ q2.id := by
    rw [hq1]
    exact hq12
  have hcalc : calculate_attempt_result db cache archive a now =
      ({ db with attempts := db.attempts.map (fun x =>
          if x.id = a.id then
            { x with spent_time := spent_time_format (now - a.start_time), result := some 1 }
          else x) },
       redisSet archive ("attempt-answers:" ++ toString a.id)
         { quiz := a.quiz.title
           result := "1/2"
           spent_time := spent_time_format (now - a.start_time) ++ "/" ++
             toString a.quiz.completion_time ++ ":00"
           questions := [
             { title := q1.title, answers := q1.answers.map (fun x => x.title),
               user_answer := some ans.title, is_correct := some true },
             { title := q2.title, answers := q2.answers.map (fun x => x.title),
               user_answer := none, is_correct := none }] }
         (48 * 60 * 60),
       "1/2") := by
    have hstr : toString (1 : Nat) ++ "/" ++ toString (2 : Nat) = "1/2" := by decide
    simp [calculate_attempt_result, hvals, hresolve, count_correct, hcorrect,
      Quiz.questions_count, hqs, question_result_doc, hq1, hnq2, hq12, hstr]
  have hcomplete : complete_attempt db cache archive a.id a.user_id now =
      ((calculate_attempt_result db cache archive a now).1,
       (calculate_attempt_result db cache archive a now).2.1,
       Except.ok (calculate_attempt_result db cache archive a now).2.2) := by
    unfold complete_attempt get_attempt_by_id
    rw [hrow]
    simp [scalar_one_or_none, hnotdone]
  rw [hcomplete, hcalc]
  dsimp only
  refine ⟨rfl, ?_⟩
  refine ⟨{ quiz := a.quiz.title
            result := "1/2"
            spent_time := spent_time_format (now - a.start_time) ++ "/" ++
              toString a.quiz.completion_time ++ ":00"
            questions := [
              { title := q1.title, answers := q1.answers.map (fun x => x.title),
                user_answer := some ans.title, is_correct := some true },
              { title := q2.title, answers := q2.answers.map (fun x => x.title),
                user_answer := none, is_correct := none }] }, ?_, ?_⟩
  · unfold get_attempt_results
    rw [redisGet_redisSet_self]
    rfl
  · simp

/-- C4, witness: completing the fixture attempt with only question 101
answered correctly (answer 201) yields "1/2" and an archive document with
nulls on the unanswered question. -/
theorem c4_scenario_b_witness :
    (complete_attempt dbAnswering [(answer_key 1 11 101, 201, 1020)] [] 1 7 36300).2.2 =
      Except.ok "1/2" ∧
    ∃ doc : ResultDoc,
      get_attempt_results
          (complete_attempt dbAnswering [(answer_key 1 11 101, 201, 1020)] [] 1 7 36300).2.1 1 =
        some doc ∧
      doc.questions.map (fun q => (q.user_answer, q.is_correct)) =
        [(some ansA.title, some true), (none, none)] :=
  c4_scenario_b dbAnswering [(answer_key 1 11 101, 201, 1020)] [] attemptOne questionOne
    questionTwo ansA 36300 1020 (by decide) (by decide) (by decide) rfl (by decide) (by decide)
    (by decide) (by decide)

end QuizApp
